import Mathlib

/-!
Shallow embedding of the Audio-RAG-QA pipeline (`src/rag.py`).

The repository is a minimal retrieval-augmented-generation pipeline over
audio transcripts: `create_embeddings_and_store` ingests speaker-labelled
utterances into a MongoDB collection together with a per-ingestion
`session_id`, and lazily creates the `vector_index` search index;
`search_and_generate_response` embeds a query, runs a `$vectorSearch`
aggregation (limit 5, optionally followed by a `$match` on `session_id`),
and asks an LLM for an answer grounded in the retrieved snippets; the
clear-database button of `main` deletes all documents and drops the
search index.

External services (Voyage embeddings, MongoDB aggregation scoring, Gemini)
are modelled as explicit function parameters: the embedding calls and the
LLM call return `Except String _` (an `Except.error` models a raised
exception), and the similarity scoring used by `$vectorSearch` is an
abstract function `Vec → Vec → ℚ` (the actual cosine metric lives inside
the remote index and is opaque to the program).  Fallibility of the store
calls is modelled by explicit flags (`insert_ok`, `list_indexes_ok`,
`storeFail`), mirroring the `try/except` structure of the source.
-/

namespace AudioRAG

/-- An embedding vector (floats abstracted as rationals). -/
abbrev Vec := List ℚ

/-- One speaker-labelled utterance, as produced by `transcribe_audio`
(`src/rag.py` lines 41-48): a dict `{"speaker": ..., "text": ...}`. -/
structure Utterance where
  speaker : String
  text : String
deriving Repr, DecidableEq

/-- A stored MongoDB document (`src/rag.py` lines 64-69):
`{"text": ..., "embedding": ..., "session_id": ...}`. -/
structure Doc where
  text : String
  embedding : Vec
  session_id : String
deriving Repr, DecidableEq

/-- A search hit after the `$project` stage (`src/rag.py` lines 129-136):
`{"text": 1, "session_id": 1, "score": {"$meta": "vectorSearchScore"}}`. -/
structure SearchResult where
  text : String
  session_id : String
  score : ℚ
deriving Repr, DecidableEq

/-- The state of the `rag_db.test` collection: its documents plus the
names of its Atlas search indexes. -/
structure Collection where
  docs : List Doc
  indexes : List String
deriving Repr, DecidableEq

/-- Models `speaker_sents` (`src/rag.py` line 53): the Python list comprehension
building, for each transcript item, the string `speaker ++ ": " ++ text`. -/
def speaker_sents_of (speaker_transcripts : List Utterance) : List String :=
  speaker_transcripts.map (fun item => item.speaker ++ ": " ++ item.text)

/-- Atlas `create_search_index` for the model at `src/rag.py` lines 81-100:
creating a search index whose name already exists raises a duplicate-index
error; otherwise the index name is added. -/
def create_search_index (idxs : List String) : Except String (List String) :=
  if idxs.any (fun idx => idx == "vector_index") then
    Except.error "Duplicate Index"
  else
    Except.ok (idxs ++ ["vector_index"])

/-- The index-presence check of `src/rag.py` lines 96-100 (named
`ensure_index` by the spec): list the existing search indexes, test with
`any` whether one of them is named `vector_index`, and call
`create_search_index` only when the name is absent. -/
def ensure_index (idxs : List String) : Except String (List String) :=
  if idxs.any (fun idx => idx == "vector_index") then
    Except.ok idxs
  else
    create_search_index idxs

/-- Models `create_embeddings_and_store` (`src/rag.py` lines 51-109).
`embedD` models the document-mode `vo.embed` call — made at
line 55 outside any `try`, so its failure propagates.  `insert_ok` models
whether `collection.insert_many` succeeds; its failure is re-raised
(lines 75-77).  `list_indexes_ok` models whether
`collection.list_search_indexes()` succeeds; any failure inside the index
`try` block (lines 80-107) is caught and downgraded to a warning.
`fresh_session_id` stands for `str(uuid.uuid4())` (line 62).
Returns the new collection state together with `(session_id, len(docs))`. -/
def create_embeddings_and_store (embedD : List String → Except String (List Vec))
    (insert_ok : Bool) (list_indexes_ok : Bool) (fresh_session_id : String)
    (speaker_transcripts : List Utterance) (coll : Collection) :
    Except String (Collection × String × Nat) :=
  let sents := speaker_sents_of speaker_transcripts
  match embedD sents with
  | Except.error e => Except.error e
  | Except.ok embeds =>
    let session_id := fresh_session_id
    let docs := (sents.zip embeds).map (fun p => Doc.mk p.1 p.2 session_id)
    if insert_ok then
      let coll₁ : Collection := { coll with docs := coll.docs ++ docs }
      let coll₂ : Collection :=
        match (if list_indexes_ok then ensure_index coll₁.indexes
               else Except.error "list_search_indexes failed") with
        | Except.ok idxs => { coll₁ with indexes := idxs }
        | Except.error _ => coll₁
      Except.ok (coll₂, session_id, docs.length)
    else
      Except.error "插入文檔時發生錯誤"

/-- Insert a document into a list kept in descending order of similarity
score to the query vector (ties keep earlier elements first). -/
def rankInsert (sim : Vec → Vec → ℚ) (qv : Vec) (d : Doc) : List Doc → List Doc
  | [] => [d]
  | x :: xs =>
    if sim qv x.embedding < sim qv d.embedding then d :: x :: xs
    else x :: rankInsert sim qv d xs

/-- Sort documents by descending similarity score to the query vector. -/
def rankBySimilarity (sim : Vec → Vec → ℚ) (qv : Vec) : List Doc → List Doc
  | [] => []
  | d :: ds => rankInsert sim qv d (rankBySimilarity sim qv ds)

/-- The `$vectorSearch` stage (`src/rag.py` lines 120-128) with
`exact: True`: score every document of the collection against the query
vector, rank by descending score, and truncate to `limit`. -/
def vectorSearchStage (sim : Vec → Vec → ℚ) (qv : Vec) (limit : Nat)
    (docs : List Doc) : List Doc :=
  (rankBySimilarity sim qv docs).take limit

/-- The `$project` stage (`src/rag.py` lines 129-136): keep `text` and
`session_id`, attach the vector-search score. -/
def projectDoc (sim : Vec → Vec → ℚ) (qv : Vec) (d : Doc) : SearchResult :=
  ⟨d.text, d.session_id, sim qv d.embedding⟩

/-- The optional `$match` stage (`src/rag.py` lines 139-142): when
`session_id` is truthy (Python `if session_id:` is false for `None` and
for the empty string), a `$match` on `session_id` is applied to the
documents flowing out of the previous stage. -/
def sessionMatchStage (session_id : Option String) (docs : List Doc) : List Doc :=
  match session_id with
  | some s => if s ≠ "" then docs.filter (fun d => d.session_id == s) else docs
  | none => docs

/-- Models the aggregate call over `search_pipeline` (`src/rag.py` lines 119-145).
The pipeline is `[$vectorSearch, $project]`; when `session_id` is truthy,
the `$match` stage is inserted at position 1, i.e. AFTER the
`$vectorSearch` stage and its `limit: 5`.  `storeFail` injects a
connectivity failure; the aggregation also fails when the `vector_index`
search index does not exist. -/
def runSearchPipeline (sim : Vec → Vec → ℚ) (coll : Collection) (qv : Vec)
    (session_id : Option String) (storeFail : Option String) :
    Except String (List SearchResult) :=
  match storeFail with
  | some e => Except.error e
  | none =>
    if coll.indexes.any (fun idx => idx == "vector_index") then
      Except.ok ((sessionMatchStage session_id
        (vectorSearchStage sim qv 5 coll.docs)).map (projectDoc sim qv))
    else
      Except.error "index not found"

/-- Models `merged_context` (`src/rag.py` line 153): the result texts joined by
the separator `"\n\n---\n\n"`. -/
def merged_context_of (results : List SearchResult) : String :=
  String.intercalate "\n\n---\n\n" (results.map SearchResult.text)

/-- The prompt construction of `src/rag.py` lines 155-164. -/
def build_prompt (query : String) (results : List SearchResult) : String :=
  "Context information is below.\n" ++
  "----------------------- \n" ++
  merged_context_of results ++ "\n" ++
  "----------------------- \n" ++
  "Given the context information above, think step by step " ++
  "to answer the query in a crisp manner. Please answer in Traditional Chinese.\n" ++
  "Query: " ++ query ++ "\n" ++
  "Answer: "

/-- Models `search_and_generate_response` (`src/rag.py` lines 112-175).
`embedQ` models the query-mode `vo.embed` call — made at
line 113 OUTSIDE any `try`, so its failure propagates to the caller
(modelled by the outer `Except.error`).  The aggregation call is wrapped
in `try/except` (lines 144-148): a store failure yields the pair
`("搜索時發生錯誤: ...", [])`.  Empty results short-circuit to the fixed
not-found answer with `[]` (lines 150-151) before any LLM call.
`generate_content` models the Gemini call plus the
`response.candidates[0].content.parts[0].text` extraction, all inside the
`try` of lines 166-173: its failure yields the degraded answer
`"生成回答時發生錯誤: ..."` while keeping `results` as citations. -/
def search_and_generate_response (embedQ : String → Except String Vec)
    (sim : Vec → Vec → ℚ) (generate_content : String → Except String String)
    (query : String) (coll : Collection) (session_id : Option String)
    (storeFail : Option String) : Except String (String × List SearchResult) :=
  match embedQ query with
  | Except.error e => Except.error e
  | Except.ok query_embed =>
    match runSearchPipeline sim coll query_embed session_id storeFail with
    | Except.error e => Except.ok ("搜索時發生錯誤: " ++ e, [])
    | Except.ok results =>
      if results.isEmpty then
        Except.ok ("抱歉，我在資料庫中找不到相關資訊。", [])
      else
        match generate_content (build_prompt query results) with
        | Except.ok answer => Except.ok (answer, results)
        | Except.error e => Except.ok ("生成回答時發生錯誤: " ++ e, results)

/-- Atlas `drop_search_index("vector_index")` (`src/rag.py` line 208):
dropping a non-existent index raises; otherwise every index of that name
is removed. -/
def drop_search_index (idxs : List String) : Except String (List String) :=
  if idxs.any (fun idx => idx == "vector_index") then
    Except.ok (idxs.filter (fun n => n ≠ "vector_index"))
  else
    Except.error "index not found"

/-- The clear-database button handler of `main` (`src/rag.py` lines
200-215), named `reset` by the spec: `collection.delete_many` removes every
document, then `drop_search_index("vector_index")` runs inside its own
`try/except` — when the index does not exist the raised error is caught
(`st.info("索引不存在或已被刪除")`) and the handler continues. -/
def reset (coll : Collection) : Collection :=
  let coll₁ : Collection := { coll with docs := [] }
  match drop_search_index coll₁.indexes with
  | Except.ok idxs => { coll₁ with indexes := idxs }
  | Except.error _ => coll₁

/-- The pre-filter search semantics demanded by the spec, for comparison
with the pipeline of the code.  Follows the words of the spec (§4.3
`search`): "When `session_id` is
given, results MUST be filtered to that session before ranking/limiting
(pre-filter, not post-filter, to avoid returning fewer than `top_k`
relevant hits)." -/
def search_prefilter_specced (sim : Vec → Vec → ℚ) (qv : Vec) (limit : Nat)
    (session_id : Option String) (docs : List Doc) : List Doc :=
  vectorSearchStage sim qv limit (sessionMatchStage session_id docs)

/-- A concrete similarity scorer used on concrete inputs: the score of a
stored vector is its first coordinate (the metric itself is opaque to the
program, so any concrete instance of the `sim` parameter is admissible). -/
def simW : Vec → Vec → ℚ := fun _ v => v.headD 0

end AudioRAG

deriving instance DecidableEq for Except

namespace AudioRAG

/-! ### Concrete fixtures used by witnesses and counterexamples -/

/-- A query-embedding adapter that always succeeds with the vector `[1]`. -/
def embedW : String → Except String Vec := fun _ => Except.ok [1]

/-- An LLM adapter that always succeeds with a fixed answer. -/
def genW : String → Except String String := fun _ => Except.ok "好的"

/-- A stored segment of session `"A"`. -/
def docA : Doc := ⟨"Speaker A: hello", [1], "A"⟩

/-- A stored segment of session `"B"`. -/
def docB : Doc := ⟨"Speaker B: world", [2], "B"⟩

/-- A collection holding one segment of each of the sessions `"A"` and
`"B"`, with the vector index present. -/
def collW : Collection := ⟨[docB, docA], ["vector_index"]⟩

/-! ### Claims -/

/-- Every result surviving the `$match` stage of a session-scoped pipeline
carries that session id. -/
lemma runSearchPipeline_session (sim : Vec → Vec → ℚ) (coll : Collection)
    (qv : Vec) (s : String) (storeFail : Option String)
    (results : List SearchResult) (hs : s ≠ "")
    (h : runSearchPipeline sim coll qv (some s) storeFail = Except.ok results) :
    ∀ r ∈ results, r.session_id = s := by
  intro r hr
  unfold runSearchPipeline at h
  cases storeFail with
  | some e => cases h
  | none =>
    by_cases hidx : (coll.indexes.any fun idx => idx == "vector_index") = true
    · rw [if_pos hidx] at h
      rw [show sessionMatchStage (some s) (vectorSearchStage sim qv 5 coll.docs)
            = (vectorSearchStage sim qv 5 coll.docs).filter
                (fun d => d.session_id == s) by simp [sessionMatchStage, hs]] at h
      cases h
      obtain ⟨d, hd, rfl⟩ := List.mem_map.mp hr
      have := (List.mem_filter.mp hd).2
      simpa [projectDoc] using this
    · rw [if_neg hidx] at h
      cases h

/-- C1: for every search performed with a (truthy) `session_id`, every
segment in the returned result list carries that `session_id`: a search
scoped to session `s` never returns a segment created under a different
session.  This holds because the inserted `$match` stage keeps exactly the
documents whose `session_id` equals the given one. -/
theorem C1_scoped_search_session_isolation
    (embedQ : String → Except String Vec) (sim : Vec → Vec → ℚ)
    (generate_content : String → Except String String) (query : String)
    (coll : Collection) (s : String) (storeFail : Option String)
    (ans : String) (results : List SearchResult)
    (hs : s ≠ "")
    (h : search_and_generate_response embedQ sim generate_content query coll
          (some s) storeFail = Except.ok (ans, results)) :
    results.all (fun r => r.session_id == s) = true := by
  rw [List.all_eq_true]
  intro r hr
  rw [beq_iff_eq]
  revert r hr
  unfold search_and_generate_response at h
  cases hq : embedQ query with
  | error e => rw [hq] at h; cases h
  | ok qv =>
    rw [hq] at h
    cases hp : runSearchPipeline sim coll qv (some s) storeFail with
    | error e =>
      simp only [hp] at h
      cases h
      intro r hr
      cases hr
    | ok res =>
      simp only [hp] at h
      by_cases he : res.isEmpty
      · rw [if_pos he] at h
        cases h
        intro r hr
        cases hr
      · rw [if_neg he] at h
        cases hg : generate_content (build_prompt query res) with
        | ok a =>
          simp only [hg] at h
          cases h
          exact runSearchPipeline_session sim coll qv s storeFail _ hs hp
        | error e =>
          simp only [hg] at h
          cases h
          exact runSearchPipeline_session sim coll qv s storeFail _ hs hp

/-- Witness for C1 at a concrete scoped search over `collW`. -/
theorem C1_witness :
    ("A" : String) ≠ "" ∧
    ([(⟨"Speaker A: hello", "A", 1⟩ : SearchResult)].all
      (fun r => r.session_id == "A")) = true :=
  ⟨by decide,
   C1_scoped_search_session_isolation embedW simW genW "q" collW "A" none
     "好的" [⟨"Speaker A: hello", "A", 1⟩] (by decide) (by decide)⟩

end AudioRAG

namespace AudioRAG

/-- A collection in which the five globally highest-scoring segments all
belong to session `"B"`, while session `"A"` holds one relevant segment. -/
def collC2 : Collection :=
  ⟨[⟨"Speaker B: b1", [10], "B"⟩, ⟨"Speaker B: b2", [9], "B"⟩,
    ⟨"Speaker B: b3", [8], "B"⟩, ⟨"Speaker B: b4", [7], "B"⟩,
    ⟨"Speaker B: b5", [6], "B"⟩, ⟨"Speaker A: a1", [1], "A"⟩],
   ["vector_index"]⟩

/-- C2: the code applies the session filter AFTER the `$vectorSearch`
stage and its `limit: 5` (the `$match` is inserted at pipeline position 1,
behind `$vectorSearch`), i.e. it post-filters, contrary to the claimed
pre-filter.  On `collC2`, a search scoped to session `"A"` returns the
"not found" answer with zero citations, although session `"A"` contains a
stored segment, which the pre-filter semantics of the spec
(`search_prefilter_specced`) would return. -/
theorem C2_postfilter_loses_session_hits :
    search_and_generate_response embedW simW genW "q" collC2 (some "A") none
      = Except.ok ("抱歉，我在資料庫中找不到相關資訊。", [])
    ∧ search_prefilter_specced simW [1] 5 (some "A") collC2.docs
      = [⟨"Speaker A: a1", [1], "A"⟩]
    ∧ (⟨"Speaker A: a1", [1], "A"⟩ : Doc) ∈ collC2.docs :=
  ⟨by decide, by decide, by decide⟩

/-- On a successful ingestion (embedding succeeded, insert succeeded), the
stored documents, the returned session id and the returned count do not
depend on the outcome of the index-ensure step. -/
lemma create_ok_shape (embedD : List String → Except String (List Vec))
    (lio : Bool) (sid : String) (ts : List Utterance) (coll : Collection)
    (embeds : List Vec)
    (hembed : embedD (speaker_sents_of ts) = Except.ok embeds) :
    (create_embeddings_and_store embedD true lio sid ts coll).map
      (fun out => (out.1.docs, out.2.1, out.2.2))
    = Except.ok (coll.docs ++ ((speaker_sents_of ts).zip embeds).map
        (fun p => Doc.mk p.1 p.2 sid), sid,
        ((speaker_sents_of ts).zip embeds).length) := by
  simp only [create_embeddings_and_store, hembed]
  split
  · split <;> simp [Except.map]
  · rename_i h
    exact absurd trivial h

end AudioRAG

namespace AudioRAG

/-- A document-embedding adapter that returns one vector `[1]` per input
text (same length and order as its input, per the adapter contract). -/
def embedD2 : List String → Except String (List Vec) :=
  fun ts => Except.ok (ts.map (fun _ => [1]))

/-- A two-utterance transcript fixture. -/
def uttsW : List Utterance := [⟨"Speaker A", "hello"⟩, ⟨"Speaker B", "world"⟩]

/-- C3: for a non-empty utterance list, when the embedding adapter honours
its contract (one vector per input text), a successful ingestion returns
`segment_count = ts.length`, returns the freshly generated session id, and
appends to the store exactly one document per utterance, in order, with
text `"{speaker}: {text}"` and the returned session id (the index-ensure
outcome `lio` only affects the index metadata, which is projected away). -/
theorem C3_ingest_segment_texts_counts
    (embedD : List String → Except String (List Vec)) (lio : Bool)
    (sid : String) (ts : List Utterance) (coll : Collection) (embeds : List Vec)
    (hne : ts ≠ [])
    (hembed : embedD (speaker_sents_of ts) = Except.ok embeds)
    (hlen : embeds.length = ts.length) :
    (create_embeddings_and_store embedD true lio sid ts coll).map
      (fun out => (out.1.docs, out.2.1, out.2.2))
    = Except.ok (coll.docs ++ (ts.zip embeds).map
        (fun p => Doc.mk (p.1.speaker ++ ": " ++ p.1.text) p.2 sid),
        sid, ts.length) := by
  rw [create_ok_shape embedD lio sid ts coll embeds hembed]
  unfold speaker_sents_of
  rw [List.zip_map_left]
  simp [List.map_map, List.length_zip, hlen, Function.comp, Prod.map]

/-- Witness for C3 on a concrete two-utterance ingestion. -/
theorem C3_witness :
    (uttsW ≠ [] ∧
      embedD2 (speaker_sents_of uttsW) = Except.ok [[1], [1]] ∧
      ([[1], [1]] : List Vec).length = uttsW.length) ∧
    (create_embeddings_and_store embedD2 true true "sid-1" uttsW ⟨[], []⟩).map
      (fun out => (out.1.docs, out.2.1, out.2.2))
    = Except.ok ([] ++ (uttsW.zip [[1], [1]]).map
        (fun p => Doc.mk (p.1.speaker ++ ": " ++ p.1.text) p.2 "sid-1"),
        "sid-1", uttsW.length) :=
  ⟨⟨by decide, by decide, by decide⟩,
   C3_ingest_segment_texts_counts embedD2 true "sid-1" uttsW ⟨[], []⟩
     [[1], [1]] (by decide) (by decide) (by decide)⟩

/-- The first components of a zip are the first `l₂.length` elements of
the first list. -/
lemma map_fst_zip_eq_take {α β : Type} (l : List α) (l₂ : List β) :
    (l.zip l₂).map Prod.fst = l.take l₂.length := by
  induction l generalizing l₂ with
  | nil => simp
  | cons a as ih => cases l₂ <;> simp [ih]

/-- C10: ingestion pairs segment texts with the adapter vectors
positionally via `zip`, so a successful ingestion inserts and reports
`min ts.length embeds.length` documents; when the adapter returns fewer
vectors than texts, the unpaired trailing texts are silently dropped (the
stored texts are exactly the first `embeds.length` ones), with no error. -/
theorem C10_zip_truncates_unpaired_texts
    (embedD : List String → Except String (List Vec)) (lio : Bool)
    (sid : String) (ts : List Utterance) (coll : Collection) (embeds : List Vec)
    (hembed : embedD (speaker_sents_of ts) = Except.ok embeds) :
    (create_embeddings_and_store embedD true lio sid ts coll).map
      (fun out => (out.1.docs, out.2.1, out.2.2))
    = Except.ok (coll.docs ++ ((speaker_sents_of ts).zip embeds).map
        (fun p => Doc.mk p.1 p.2 sid), sid, min ts.length embeds.length)
    ∧ ((speaker_sents_of ts).zip embeds).map Prod.fst
        = (speaker_sents_of ts).take embeds.length := by
  constructor
  · rw [create_ok_shape embedD lio sid ts coll embeds hembed]
    simp [List.length_zip, speaker_sents_of]
  · exact map_fst_zip_eq_take _ _

/-- Witness for C10 on an ingestion where the adapter returns one vector
for two texts: only the first segment is stored and counted. -/
theorem C10_witness :
    (fun _ => Except.ok [[1]] : List String → Except String (List Vec))
      (speaker_sents_of uttsW) = Except.ok [[1]] ∧
    ((create_embeddings_and_store (fun _ => Except.ok [[1]]) true true "sid-1"
        uttsW ⟨[], []⟩).map (fun out => (out.1.docs, out.2.1, out.2.2))
      = Except.ok ([] ++ ((speaker_sents_of uttsW).zip [[1]]).map
          (fun p => Doc.mk p.1 p.2 "sid-1"), "sid-1",
          min uttsW.length ([[1]] : List Vec).length)
      ∧ ((speaker_sents_of uttsW).zip [[1]]).map Prod.fst
          = (speaker_sents_of uttsW).take ([[1]] : List Vec).length) :=
  ⟨by decide,
   C10_zip_truncates_unpaired_texts (fun _ => Except.ok [[1]]) true "sid-1"
     uttsW ⟨[], []⟩ [[1]] (by decide)⟩

/-- C8: when the insert succeeds but the index-ensure step fails
(`list_indexes_ok = false`, i.e. the `try` block of lines 80-107 raises),
ingestion still returns `Except.ok` with the `(session_id, segment_count)`
pair, the inserted segments remain stored in the collection, and the index
metadata is left unchanged — the index failure is never escalated. -/
theorem C8_index_failure_nonfatal
    (embedD : List String → Except String (List Vec)) (sid : String)
    (ts : List Utterance) (coll : Collection) (embeds : List Vec)
    (hembed : embedD (speaker_sents_of ts) = Except.ok embeds) :
    create_embeddings_and_store embedD true false sid ts coll
    = Except.ok (⟨coll.docs ++ ((speaker_sents_of ts).zip embeds).map
        (fun p => Doc.mk p.1 p.2 sid), coll.indexes⟩, sid,
        ((speaker_sents_of ts).zip embeds).length) := by
  simp [create_embeddings_and_store, hembed]

/-- Witness for C8 on a concrete ingestion with a failing index step. -/
theorem C8_witness :
    embedD2 (speaker_sents_of uttsW) = Except.ok [[1], [1]] ∧
    create_embeddings_and_store embedD2 true false "sid-1" uttsW ⟨[docA], ["old"]⟩
      = Except.ok (⟨[docA] ++ ((speaker_sents_of uttsW).zip [[1], [1]]).map
          (fun p => Doc.mk p.1 p.2 "sid-1"), ["old"]⟩, "sid-1",
          ((speaker_sents_of uttsW).zip [[1], [1]]).length) :=
  ⟨by decide,
   C8_index_failure_nonfatal embedD2 "sid-1" uttsW ⟨[docA], ["old"]⟩
     [[1], [1]] (by decide)⟩

end AudioRAG

namespace AudioRAG

/-- C4 counterexample: (a) a failing query-embedding call (`src/rag.py`
line 113, outside any `try`) escapes `search_and_generate_response`
uncaught, instead of being converted to an answer pair; (b) on a synthesis
failure the returned citations are the non-empty retrieved list, not an
empty list. -/
theorem C4_counterexample :
    search_and_generate_response (fun _ => Except.error "embedding service unreachable")
      simW genW "q" collW (some "A") none
      = Except.error "embedding service unreachable"
    ∧ search_and_generate_response embedW simW (fun _ => Except.error "llm unreachable")
        "q" collW none none
      = Except.ok ("生成回答時發生錯誤: llm unreachable",
          [⟨"Speaker B: world", "B", 2⟩, ⟨"Speaker A: hello", "A", 1⟩]) :=
  ⟨by decide, by decide⟩

/-- C4 (amended): once the query embedding has succeeded, the pipeline
always returns an `Except.ok` answer/citations pair — store-search
failures and synthesis failures never escape — and an injected
store-search failure yields the descriptive error answer with an empty
citation list.  (A query-embedding failure, by contrast, propagates
uncaught: see the counterexample.) -/
theorem C4_failure_containment_after_embedding
    (embedQ : String → Except String Vec) (sim : Vec → Vec → ℚ)
    (generate_content : String → Except String String) (query : String)
    (coll : Collection) (sid : Option String) (storeFail : Option String)
    (qv : Vec) (e : String)
    (hq : embedQ query = Except.ok qv) :
    (search_and_generate_response embedQ sim generate_content query coll
       sid storeFail).isOk = true
    ∧ search_and_generate_response embedQ sim generate_content query coll
        sid (some e)
      = Except.ok ("搜索時發生錯誤: " ++ e, []) := by
  constructor
  · unfold search_and_generate_response
    simp only [hq]
    cases hp : runSearchPipeline sim coll qv sid storeFail with
    | error e2 => simp only [hp]; rfl
    | ok res =>
      simp only [hp]
      by_cases he : res.isEmpty
      · rw [if_pos he]
        rfl
      · rw [if_neg he]
        cases hg : generate_content (build_prompt query res) with
        | ok a => simp only [hg]; rfl
        | error e3 => simp only [hg]; rfl
  · unfold search_and_generate_response
    simp only [hq]
    rfl

/-- Witness for the amended C4 theorem at a concrete query. -/
theorem C4_witness :
    embedW "q" = Except.ok [1]
    ∧ ((search_and_generate_response embedW simW genW "q" collW none none).isOk = true
       ∧ search_and_generate_response embedW simW genW "q" collW none (some "boom")
         = Except.ok ("搜索時發生錯誤: boom", [])) :=
  ⟨by decide,
   C4_failure_containment_after_embedding embedW simW genW "q" collW none none
     [1] "boom" (by decide)⟩

/-- C5: when retrieval succeeds with non-empty results and the synthesis
call fails, the pipeline returns the degraded error-message answer
together with the retrieved citation list (not discarded), raising
nothing. -/
theorem C5_synthesis_failure_keeps_citations
    (embedQ : String → Except String Vec) (sim : Vec → Vec → ℚ)
    (generate_content : String → Except String String) (query : String)
    (coll : Collection) (sid : Option String) (storeFail : Option String)
    (qv : Vec) (results : List SearchResult) (e : String)
    (hq : embedQ query = Except.ok qv)
    (hres : runSearchPipeline sim coll qv sid storeFail = Except.ok results)
    (hne : results ≠ [])
    (hgen : generate_content (build_prompt query results) = Except.error e) :
    search_and_generate_response embedQ sim generate_content query coll sid storeFail
      = Except.ok ("生成回答時發生錯誤: " ++ e, results) := by
  unfold search_and_generate_response
  simp only [hq, hres]
  rw [if_neg (by simp [List.isEmpty_iff, hne])]
  simp only [hgen]

/-- A generator fixture that always fails. -/
def genFail : String → Except String String := fun _ => Except.error "停機"

/-- Witness for C5 at a concrete query whose retrieval finds two segments
and whose synthesis fails. -/
theorem C5_witness :
    (embedW "q" = Except.ok [1]
      ∧ runSearchPipeline simW collW [1] none none
          = Except.ok [⟨"Speaker B: world", "B", 2⟩, ⟨"Speaker A: hello", "A", 1⟩]
      ∧ ([(⟨"Speaker B: world", "B", 2⟩ : SearchResult), ⟨"Speaker A: hello", "A", 1⟩] ≠ [])
      ∧ genFail (build_prompt "q"
          [⟨"Speaker B: world", "B", 2⟩, ⟨"Speaker A: hello", "A", 1⟩])
          = Except.error "停機")
    ∧ search_and_generate_response embedW simW genFail "q" collW none none
      = Except.ok ("生成回答時發生錯誤: 停機",
          [⟨"Speaker B: world", "B", 2⟩, ⟨"Speaker A: hello", "A", 1⟩]) :=
  ⟨⟨by decide, by decide, by decide, by decide⟩,
   C5_synthesis_failure_keeps_citations embedW simW genFail "q" collW none none
     [1] [⟨"Speaker B: world", "B", 2⟩, ⟨"Speaker A: hello", "A", 1⟩] "停機"
     (by decide) (by decide) (by decide) (by decide)⟩

/-- C6: when the store search returns zero results, the pipeline returns
the fixed "not found" answer with an empty citation list, and the answer
synthesizer is never invoked — the outcome is the same for every possible
`generate_content` function, which is quantified over. -/
theorem C6_empty_results_bypass_llm
    (embedQ : String → Except String Vec) (sim : Vec → Vec → ℚ)
    (generate_content : String → Except String String) (query : String)
    (coll : Collection) (sid : Option String) (storeFail : Option String)
    (qv : Vec)
    (hq : embedQ query = Except.ok qv)
    (hres : runSearchPipeline sim coll qv sid storeFail = Except.ok []) :
    search_and_generate_response embedQ sim generate_content query coll sid storeFail
      = Except.ok ("抱歉，我在資料庫中找不到相關資訊。", []) := by
  unfold search_and_generate_response
  simp only [hq, hres]
  rfl

/-- An indexed but empty collection. -/
def collE : Collection := ⟨[], ["vector_index"]⟩

/-- Witness for C6: a search over an indexed empty collection, run with
the always-failing generator — the fixed "not found" answer is returned
and the failing generator is never consulted. -/
theorem C6_witness :
    (embedW "q" = Except.ok [1]
      ∧ runSearchPipeline simW collE [1] (some "A") none = Except.ok [])
    ∧ search_and_generate_response embedW simW genFail "q" collE (some "A") none
      = Except.ok ("抱歉，我在資料庫中找不到相關資訊。", []) :=
  ⟨⟨by decide, by decide⟩,
   C6_empty_results_bypass_llm embedW simW genFail "q" collE (some "A") none
     [1] (by decide) (by decide)⟩

end AudioRAG

namespace AudioRAG

/-- C7: `ensure_index` is idempotent.  Starting from any index state with
no duplicate `vector_index` entry (the store never holds two indexes of
one name), the first call succeeds, the state it produces contains exactly
one index named `vector_index`, and running a second identical call on
that state returns it unchanged with no duplicate-index error — because
the existing index metadata is checked by name before any creation. -/
theorem C7_ensure_index_idempotent (idxs : List String)
    (h : idxs.count "vector_index" ≤ 1) :
    (ensure_index idxs).bind ensure_index = ensure_index idxs
    ∧ (ensure_index idxs).map (fun l => l.count "vector_index")
        = Except.ok 1 := by
  by_cases hc : (idxs.any fun idx => idx == "vector_index") = true
  · have hmem : "vector_index" ∈ idxs := by
      obtain ⟨x, hx, hbeq⟩ := List.any_eq_true.mp hc
      have hxe : x = "vector_index" := by simpa using hbeq
      rwa [hxe] at hx
    have hcount : idxs.count "vector_index" = 1 := by
      have hpos : 0 < idxs.count "vector_index" := List.count_pos_iff.mpr hmem
      omega
    have he : ensure_index idxs = Except.ok idxs := by
      unfold ensure_index
      rw [if_pos hc]
    refine ⟨?_, ?_⟩
    · rw [he]
      exact he
    · rw [he]
      simp [Except.map, hcount]
  · have hmem : "vector_index" ∉ idxs := by
      intro hmem
      exact hc (List.any_eq_true.mpr ⟨"vector_index", hmem, by simp⟩)
    have hcount : idxs.count "vector_index" = 0 := List.count_eq_zero.mpr hmem
    have he : ensure_index idxs = Except.ok (idxs ++ ["vector_index"]) := by
      unfold ensure_index create_search_index
      rw [if_neg hc, if_neg hc]
    have hc2 : ((idxs ++ ["vector_index"]).any fun idx => idx == "vector_index")
        = true := by simp
    have he2 : ensure_index (idxs ++ ["vector_index"])
        = Except.ok (idxs ++ ["vector_index"]) := by
      unfold ensure_index
      rw [if_pos hc2]
    refine ⟨?_, ?_⟩
    · rw [he]
      exact he2
    · rw [he]
      simp [Except.map, List.count_append, hcount]

/-- Witness for C7 from a state holding one unrelated index. -/
theorem C7_witness :
    (["old"] : List String).count "vector_index" ≤ 1
    ∧ ((ensure_index ["old"]).bind ensure_index = ensure_index ["old"]
       ∧ (ensure_index ["old"]).map (fun l => l.count "vector_index")
           = Except.ok 1) :=
  ⟨by decide, C7_ensure_index_idempotent ["old"] (by decide)⟩

/-- The `reset` handler always ends with no documents and with every `vector_index`
entry removed: when the index exists the drop removes it, and when it does
not exist the raised "index not found" is caught, leaving the (already
`vector_index`-free) index list unchanged. -/
lemma reset_eq (coll : Collection) :
    reset coll = ⟨[], coll.indexes.filter (fun n => n ≠ "vector_index")⟩ := by
  unfold reset drop_search_index
  dsimp only
  by_cases hc : (coll.indexes.any fun idx => idx == "vector_index") = true
  · rw [if_pos hc]
  · rw [if_neg hc]
    have hfe : coll.indexes.filter (fun n => n ≠ "vector_index") = coll.indexes := by
      refine List.filter_eq_self.mpr ?_
      intro a ha
      by_contra hne
      refine hc (List.any_eq_true.mpr ⟨a, ha, ?_⟩)
      simpa using hne
    rw [hfe]

/-- C9: after `reset`, the collection holds no segment records and no
`vector_index`; `reset` completes (without raising) even when the index
does not exist; and any search issued immediately after `reset` comes back
with an empty citation list — never stale segments — whether the store
call fails cleanly ("index not found", caught and turned into the error
answer) or a connectivity failure is injected. -/
theorem C9_reset_then_search_empty
    (coll : Collection) (embedQ : String → Except String Vec)
    (sim : Vec → Vec → ℚ) (generate_content : String → Except String String)
    (query : String) (sid : Option String) (storeFail : Option String)
    (qv : Vec)
    (hq : embedQ query = Except.ok qv) :
    (reset coll).docs = []
    ∧ ((reset coll).indexes.any fun idx => idx == "vector_index") = false
    ∧ reset ⟨coll.docs, []⟩ = ⟨[], []⟩
    ∧ (search_and_generate_response embedQ sim generate_content query
        (reset coll) sid storeFail).map Prod.snd
        = Except.ok ([] : List SearchResult) := by
  have hidx : ((reset coll).indexes.any fun idx => idx == "vector_index") = false := by
    rw [reset_eq]
    simp only [Bool.eq_false_iff]
    intro hany
    obtain ⟨x, hx, hbeq⟩ := List.any_eq_true.mp hany
    have hxe : x = "vector_index" := by simpa using hbeq
    have := (List.mem_filter.mp hx).2
    rw [hxe] at this
    simp at this
  refine ⟨by rw [reset_eq], hidx, by rw [reset_eq]; rfl, ?_⟩
  unfold search_and_generate_response
  simp only [hq]
  cases storeFail with
  | some e => rfl
  | none =>
    unfold runSearchPipeline
    rw [if_neg (by rw [hidx]; exact Bool.false_ne_true)]
    rfl

/-- Witness for C9 at the concrete two-session collection. -/
theorem C9_witness :
    embedW "q" = Except.ok [1]
    ∧ ((reset collW).docs = []
       ∧ ((reset collW).indexes.any fun idx => idx == "vector_index") = false
       ∧ reset ⟨collW.docs, []⟩ = ⟨[], []⟩
       ∧ (search_and_generate_response embedW simW genW "q"
            (reset collW) (some "A") none).map Prod.snd
           = Except.ok ([] : List SearchResult)) :=
  ⟨by decide,
   C9_reset_then_search_empty collW embedW simW genW "q" (some "A") none
     [1] (by decide)⟩

end AudioRAG
